import Mathlib

/-!
Verification of the `gas-estimation` library (cowprotocol/gas-estimation).

Shallow embedding of the Rust sources:
* `src/gas_price.rs` — the fee data model (`EstimatedGasPrice`, `GasPrice1559`)
  and its pure operations.  Rust `f64` values are modelled by the elements of a
  linear ordered field, so that the same definitions serve the rational
  instantiation (used for concrete evaluation) and the real instantiation
  (used by the native oracle, whose arithmetic involves `exp` and `cos`).
* `src/blocknative.rs` — the `estimate_with_limits` read path on a cached
  BlockNative response, embedded over `ℚ`.
* `src/nativegasestimator.rs` — the native fee oracle: `sampling_curve`,
  `suggest_priority_fee`, `predict_min_base_fee`, the `suggest_fee` loop and
  the cached read path, embedded over `ℝ`.
* `src/eth_node.rs` — the node RPC estimator.
* `src/linear_interpolation.rs` is declared by `src/lib.rs` but its source is
  not part of the repository snapshot; it is modelled from the specification
  (§4.A) below.

Wall-clock instants (`std::time::Instant`) are modelled as numbers of seconds;
`Instant::now().saturating_duration_since(t)` becomes `max (now - t) 0`.
-/

namespace GasEstimation

/-- Errors surfaced by the read paths (the library uses `anyhow` strings; we
give each distinct message its own constructor). -/
inductive EstimatorError where
  /-- "cached response is stale" -/
  | staleCache
  /-- "no cached data exist" -/
  | noCachedData
  /-- "no eip1559 estimate exist" -/
  | noEip1559
  /-- "no valid response exist" (BlockNative, empty block list) -/
  | noValidResponse
  /-- interpolation input conversion failed (fewer than 2 points) -/
  | invalidInput
deriving DecidableEq, Repr

/-- Decidable equality of `Except` results (needed to settle concrete
evaluations of the read paths by `decide`). -/
instance {ε β : Type} [DecidableEq ε] [DecidableEq β] :
    DecidableEq (Except ε β) := fun a b =>
  match a, b with
  | .error x, .error y =>
    if h : x = y then isTrue (by rw [h])
    else isFalse (by intro hc; cases hc; exact h rfl)
  | .error _, .ok _ => isFalse (by intro hc; cases hc)
  | .ok _, .error _ => isFalse (by intro hc; cases hc)
  | .ok x, .ok y =>
    if h : x = y then isTrue (by rw [h])
    else isFalse (by intro hc; cases hc; exact h rfl)

/-- `GasPrice1559` from `src/gas_price.rs`: gas price structure for 1559
transactions, fields `base_fee_per_gas`, `max_fee_per_gas`,
`max_priority_fee_per_gas` (Rust `f64`, modelled over `α`). -/
structure GasPrice1559 (α : Type) where
  base_fee_per_gas : α
  max_fee_per_gas : α
  max_priority_fee_per_gas : α
deriving DecidableEq, Repr

/-- Rust `Default` for `GasPrice1559` (all fields zero). -/
instance [Zero α] : Inhabited (GasPrice1559 α) := ⟨⟨0, 0, 0⟩⟩

/-- `EstimatedGasPrice` from `src/gas_price.rs`: legacy price plus optional
EIP-1559 triple. -/
structure EstimatedGasPrice (α : Type) where
  legacy : α
  eip1559 : Option (GasPrice1559 α)
deriving DecidableEq, Repr

/-- Rust `Default` for `EstimatedGasPrice` (`legacy = 0`, `eip1559 = None`). -/
instance [Zero α] : Inhabited (EstimatedGasPrice α) := ⟨⟨0, none⟩⟩

variable {α : Type} [LinearOrderedField α]

/-- `GasPrice1559::bump` — multiply both max fields by `factor`. -/
def GasPrice1559.bump (self : GasPrice1559 α) (factor : α) : GasPrice1559 α :=
  { self with
    max_fee_per_gas := self.max_fee_per_gas * factor
    max_priority_fee_per_gas := self.max_priority_fee_per_gas * factor }

/-- `GasPrice1559::bump_cap` — multiply `max_fee_per_gas` by `factor`. -/
def GasPrice1559.bump_cap (self : GasPrice1559 α) (factor : α) : GasPrice1559 α :=
  { self with max_fee_per_gas := self.max_fee_per_gas * factor }

/-- `GasPrice1559::ceil` — round both max fields up (`f64::ceil`). -/
def GasPrice1559.ceil [FloorRing α] (self : GasPrice1559 α) : GasPrice1559 α :=
  { self with
    max_fee_per_gas := (Int.ceil self.max_fee_per_gas : α)
    max_priority_fee_per_gas := (Int.ceil self.max_priority_fee_per_gas : α) }

/-- `GasPrice1559::limit_cap` — clamp `max_fee_per_gas` to `cap` and
`max_priority_fee_per_gas` to `min(max_fee_per_gas, cap)` (the source comment:
"enforce max_priority_fee_per_gas <= max_fee_per_gas"). -/
def GasPrice1559.limit_cap (self : GasPrice1559 α) (cap : α) : GasPrice1559 α :=
  { self with
    max_fee_per_gas := min self.max_fee_per_gas cap
    max_priority_fee_per_gas :=
      min self.max_priority_fee_per_gas (min self.max_fee_per_gas cap) }

/-- `EstimatedGasPrice::effective_gas_price` — when the EIP-1559 triple is
present, `min(max_fee_per_gas, max_priority_fee_per_gas + base_fee_per_gas)`
(the Rust `min_by` with `partial_cmp`); otherwise the legacy price. -/
def EstimatedGasPrice.effective_gas_price (self : EstimatedGasPrice α) : α :=
  match self.eip1559 with
  | some gas_price =>
      min gas_price.max_fee_per_gas
        (gas_price.max_priority_fee_per_gas + gas_price.base_fee_per_gas)
  | none => self.legacy

/-- `EstimatedGasPrice::cap` — maximum gas price willing to pay. -/
def EstimatedGasPrice.cap (self : EstimatedGasPrice α) : α :=
  match self.eip1559 with
  | some gas_price => gas_price.max_fee_per_gas
  | none => self.legacy

/-- `EstimatedGasPrice::tip` — maximum tip willing to pay to miners. -/
def EstimatedGasPrice.tip (self : EstimatedGasPrice α) : α :=
  match self.eip1559 with
  | some gas_price => gas_price.max_priority_fee_per_gas
  | none => self.legacy

/-- `EstimatedGasPrice::bump`. -/
def EstimatedGasPrice.bump (self : EstimatedGasPrice α) (factor : α) :
    EstimatedGasPrice α :=
  { legacy := self.legacy * factor
    eip1559 := self.eip1559.map (fun x => x.bump factor) }

/-- `EstimatedGasPrice::bump_cap`. -/
def EstimatedGasPrice.bump_cap (self : EstimatedGasPrice α) (factor : α) :
    EstimatedGasPrice α :=
  { legacy := self.legacy * factor
    eip1559 := self.eip1559.map (fun x => x.bump_cap factor) }

/-- `EstimatedGasPrice::ceil`. -/
def EstimatedGasPrice.ceil [FloorRing α] (self : EstimatedGasPrice α) :
    EstimatedGasPrice α :=
  { legacy := (Int.ceil self.legacy : α)
    eip1559 := self.eip1559.map (fun x => x.ceil) }

/-- `EstimatedGasPrice::limit_cap`. -/
def EstimatedGasPrice.limit_cap (self : EstimatedGasPrice α) (cap : α) :
    EstimatedGasPrice α :=
  { legacy := min self.legacy cap
    eip1559 := self.eip1559.map (fun x => x.limit_cap cap) }

/-- Helper for `interpolate`: walk the consecutive anchor pairs of a list
sorted by x ascending; the first pair `(p, q)` with `x < q.1` brackets the
query and is interpolated linearly; if no pair brackets it the query lies at or
beyond the last anchor, whose y is returned (clamping). -/
def interpolateSegments (x : α) : List (α × α) → α
  | [] => 0
  | [p] => p.2
  | p :: q :: rest =>
    if x < q.1 then p.2 + (q.2 - p.2) * (x - p.1) / (q.1 - p.1)
    else interpolateSegments x (q :: rest)

/-- Modelled from the spec: `src/linear_interpolation.rs` is declared by
`src/lib.rs` but its source file is missing from the snapshot.  Spec §4.A:
given a query `x` and an anchor set sorted by x ascending, return the first y
when `x ≤ pts[0].x`, the last y when `x ≥ pts[-1].x`, otherwise the linear
interpolation over the bracketing pair; fail with *InvalidInput* when fewer
than 2 points are given (the `try_into()?` conversion in the callers). -/
def interpolate (x : α) (pts : List (α × α)) : Option α :=
  if pts.length < 2 then none
  else
    match pts with
    | [] => none
    | p :: _ => if x ≤ p.1 then some p.2 else some (interpolateSegments x pts)

namespace Blocknative

/-- `CACHED_RESPONSE_VALIDITY` from `src/blocknative.rs` (60 seconds). -/
def CACHED_RESPONSE_VALIDITY : ℚ := 60

/-- `TIME_PER_BLOCK` from `src/blocknative.rs` (15 seconds). -/
def TIME_PER_BLOCK : ℚ := 15

/-- `EstimatedPrice` from `src/blocknative.rs` (one vendor price entry). -/
structure EstimatedPrice where
  confidence : ℚ
  price : ℚ
  max_priority_fee_per_gas : ℚ
  max_fee_per_gas : ℚ
deriving DecidableEq, Repr

/-- `BlockPrice` from `src/blocknative.rs`. -/
structure BlockPrice where
  estimated_prices : List EstimatedPrice
  base_fee_per_gas : ℚ
deriving DecidableEq, Repr

/-- `Response` from `src/blocknative.rs`. -/
structure Response where
  block_prices : List BlockPrice
deriving DecidableEq, Repr

/-- `CachedResponse` from `src/blocknative.rs`; `time` is the instant at which
the cache was last updated, in seconds. -/
structure CachedResponse where
  time : ℚ
  data : Response
deriving DecidableEq, Repr

/-- The free function `estimate_with_limits` of `src/blocknative.rs`
(lines 181–254).  `now` stands for `Instant::now()`; the age of the snapshot
is `Instant::now().saturating_duration_since(cached_response.time)`, i.e.
`max (now - time) 0`.  The first block's price entries are sorted descending
by confidence, turned into anchor points `(15 / (confidence / 100), ·)` and
each of {price, max_fee, max_priority} is interpolated at the time limit. -/
def estimate_with_limits (now : ℚ) (time_limit : ℚ)
    (cached_response : CachedResponse) :
    Except EstimatorError (EstimatedGasPrice ℚ) :=
  if max (now - cached_response.time) 0 > CACHED_RESPONSE_VALIDITY then
    .error .staleCache
  else
    match cached_response.data.block_prices with
    | [] => .error .noValidResponse
    | block :: _ =>
      let sorted_prices :=
        block.estimated_prices.insertionSort
          (fun a b => b.confidence ≤ a.confidence)
      let points := sorted_prices.map (fun estimated_price =>
        (TIME_PER_BLOCK / (estimated_price.confidence / 100),
         estimated_price.price,
         estimated_price.max_fee_per_gas,
         estimated_price.max_priority_fee_per_gas))
      let gas_price_points := points.map (fun p => (p.1, p.2.1))
      let max_fee_per_gas_points := points.map (fun p => (p.1, p.2.2.1))
      let max_priority_fee_per_gas_points := points.map (fun p => (p.1, p.2.2.2))
      match interpolate time_limit gas_price_points,
            interpolate time_limit max_fee_per_gas_points,
            interpolate time_limit max_priority_fee_per_gas_points with
      | some legacy, some max_fee, some max_priority =>
        .ok
          { legacy := legacy
            eip1559 := some
              { max_fee_per_gas := max_fee
                max_priority_fee_per_gas := max_priority
                base_fee_per_gas := block.base_fee_per_gas } }
      | _, _, _ => .error .invalidInput

/-- The trait method `GasPriceEstimating::estimate_with_limits` for
`BlockNative` (lines 168–179): the `gas_limit` argument is received as
`_gas_limit` and unused; the cached snapshot is cloned and handed to the free
function. -/
def trait_estimate_with_limits (now : ℚ) (cached_response : CachedResponse)
    (_gas_limit : ℚ) (time_limit : ℚ) :
    Except EstimatorError (EstimatedGasPrice ℚ) :=
  estimate_with_limits now time_limit cached_response

end Blocknative

namespace NativeOracle

open Real

/-- `CACHED_RESPONSE_VALIDITY` from `src/nativegasestimator.rs` (60 s). -/
def CACHED_RESPONSE_VALIDITY : ℝ := 60

/-- `Params` from `src/nativegasestimator.rs`: parameters of the native gas
price estimator algorithm (`f64` fields modelled as `ℝ`, the percentile count
and block count as `ℕ`). -/
structure Params where
  sample_min_percentile : ℝ
  sample_max_percentile : ℝ
  max_reward_percentile : ℕ
  min_block_percentile : ℝ
  max_block_percentile : ℝ
  max_time_factor : ℝ
  extra_priority_fee_ratio : ℝ
  extra_priority_fee_boost : ℝ
  fallback_priority_fee : ℝ
  bump_cap_coefficient : ℝ
  fee_history_blocks : ℕ

/-- `impl Default for Params`. -/
def Params.default : Params :=
  { sample_min_percentile := 10
    sample_max_percentile := 30
    max_reward_percentile := 20
    min_block_percentile := 30
    max_block_percentile := 60
    max_time_factor := 128
    extra_priority_fee_ratio := 0.25
    extra_priority_fee_boost := 1559
    fallback_priority_fee := 2e9
    bump_cap_coefficient := 2
    fee_history_blocks := 300 }

/-- The fee-history frame returned by `eth_feeHistory` (the fields of
`web3::types::FeeHistory` used by `suggest_fee`): `base_fee_per_gas` holds
`U256` values (modelled as `ℕ`), `gas_used_ratio` holds `f64` utilization
ratios (modelled as `ℚ` — only order comparisons against `0.9` are performed
on them). -/
structure FeeHistory where
  oldest_block : ℕ
  base_fee_per_gas : List ℕ
  gas_used_ratio : List ℚ

/-- The carry-forward loop of `suggest_fee` (lines 193–197): iterate the
indices of `gas_used_ratio` from the most recent (`len - 1`) down to `0`; a
block with `gas_used_ratio > 0.9` is considered full and its base fee is
replaced by its successor's (already-updated) base fee.  `fuel` is the number
of indices still to process, so the call with `fuel = len` processes
`len - 1, len - 2, …, 0` in that order. -/
def carryForward (gas_used_ratio : List ℚ) : ℕ → List ℕ → List ℕ
  | 0, base_fee => base_fee
  | i + 1, base_fee =>
    let base_fee2 :=
      if gas_used_ratio.getD i 0 > 0.9 then
        base_fee.set i (base_fee.getD (i + 1) 0)
      else base_fee
    carryForward gas_used_ratio i base_fee2

/-- The base-fee initialisation of `suggest_fee` (lines 182–197): copy the
fetched `base_fee_per_gas`, multiply the last (pending-block) entry by the
integer expression `9 / 8` (which evaluates to `1` in integer arithmetic, as
in the Rust source), then run the full-block carry-forward. -/
def adjusted_base_fee (fee_history : FeeHistory) : List ℕ :=
  let base_fee := fee_history.base_fee_per_gas.set
    (fee_history.base_fee_per_gas.length - 1)
    (fee_history.base_fee_per_gas.getD
      (fee_history.base_fee_per_gas.length - 1) 0 * (9 / 8))
  carryForward fee_history.gas_used_ratio fee_history.gas_used_ratio.length
    base_fee

/-- The index ordering of `suggest_fee` (lines 183, 199): the indices
`0 .. len - 1` sorted ascending by the corresponding adjusted base fee
(a stable sort, like Rust's `sort_by`). -/
def baseFeeOrder (base_fee : List ℕ) : List ℕ :=
  (List.range base_fee.length).insertionSort
    (fun a b => base_fee.getD a 0 ≤ base_fee.getD b 0)

/-- `sampling_curve` from `src/nativegasestimator.rs` (lines 364–377): the
raised-cosine ramp between `sample_min_percentile` and
`sample_max_percentile`. -/
noncomputable def sampling_curve (percentile : ℝ) (params : Params) : ℝ :=
  if percentile ≤ params.sample_min_percentile then 0
  else if percentile ≥ params.sample_max_percentile then 1
  else
    (1 - Real.cos ((percentile - params.sample_min_percentile) * 2 * π /
      (params.sample_max_percentile - params.sample_min_percentile))) / 2

/-- `suggest_priority_fee` from `src/nativegasestimator.rs` (lines 325–335):
empty rewards give the fallback priority fee; otherwise index into the sorted
rewards at `floor((len - 1) · factor)` where
`factor = (min_block_percentile + (max_block_percentile -
min_block_percentile) / time_factor) / 100`, and add the boost. -/
noncomputable def suggest_priority_fee (rewards : List ℕ) (time_factor : ℝ)
    (params : Params) : ℝ :=
  if rewards.isEmpty then params.fallback_priority_fee
  else
    let factor := (params.min_block_percentile +
      (params.max_block_percentile - params.min_block_percentile) /
        time_factor) / 100
    let index := (Int.floor ((rewards.length - 1 : ℝ) * factor)).toNat
    (rewards.getD index 0 : ℝ) + params.extra_priority_fee_boost

/-- The accumulation loop of `predict_min_base_fee` (lines 349–359): walk the
indices in ascending base-fee order, accumulate the exponential weight, map it
through the sampling curve and add the weighted base fee; return early once
the curve reaches 1. -/
noncomputable def predictLoop (base_fee : List ℕ) (pending_weight time_div : ℝ)
    (params : Params) :
    List ℕ → ℝ → ℝ → ℝ → ℝ
  | [], _, result, _ => result
  | order_elem :: rest, sum_weight, result, sampling_curve_last =>
    let sum_weight2 := sum_weight + pending_weight *
      Real.exp (((order_elem : ℝ) - (base_fee.length : ℝ) + 1) / time_div)
    let sampling_curve_value := sampling_curve (sum_weight2 * 100) params
    let result2 := result + (sampling_curve_value - sampling_curve_last) *
      (base_fee.getD order_elem 0 : ℝ)
    if sampling_curve_value ≥ 1 then result2
    else predictLoop base_fee pending_weight time_div params rest sum_weight2
      result2 sampling_curve_value

/-- `predict_min_base_fee` from `src/nativegasestimator.rs` (lines 339–361):
an average of base fees in the sampled percentile range of recent base-fee
history, each block weighted with an exponential time function. -/
noncomputable def predict_min_base_fee (base_fee : List ℕ) (order : List ℕ)
    (time_div : ℝ) (params : Params) : ℝ :=
  if time_div < 1e-6 then (base_fee.getLastD 0 : ℝ)
  else
    let pending_weight := (1 - Real.exp (-1 / time_div)) /
      (1 - Real.exp (-(base_fee.length : ℝ) / time_div))
    predictLoop base_fee pending_weight time_div params order 0 0 0

/-- The suggestion loop of `suggest_fee` (lines 209–244): starting from
`params.max_time_factor` and halving while `time_factor >= 1.0`, emit one
`(time_factor, EstimatedGasPrice)` entry per iteration.  `max_base_fee` is the
running maximum of the predicted minimal base fees (initially `0.0`); when the
prediction for the current window is not above it, the running maximum is used
instead and an `extra_fee` is added to the priority fee.  The emitted
`base_fee_per_gas` is the raw pending-block base fee of the fetched history. -/
noncomputable def suggestFeeLoop (fee_history : FeeHistory) (base_fee : List ℕ)
    (order : List ℕ) (rewards : List ℕ) (params : Params) (time_factor : ℝ)
    (max_base_fee : ℝ) : List (ℝ × EstimatedGasPrice ℝ) :=
  if h : time_factor < 1 then []
  else
    let priority_fee := suggest_priority_fee rewards time_factor params
    let min_base_fee :=
      predict_min_base_fee base_fee order (time_factor - 1) params
    let extra_fee :=
      if min_base_fee > max_base_fee then 0
      else (max_base_fee - min_base_fee) * params.extra_priority_fee_ratio
    let min_base_fee2 :=
      if min_base_fee > max_base_fee then min_base_fee else max_base_fee
    (time_factor,
      ({ legacy := 0
         eip1559 := some
           { base_fee_per_gas := (fee_history.base_fee_per_gas.getLastD 0 : ℝ)
             max_fee_per_gas := min_base_fee2 + priority_fee
             max_priority_fee_per_gas := priority_fee + extra_fee } } :
        EstimatedGasPrice ℝ)) ::
    suggestFeeLoop fee_history base_fee order rewards params (time_factor / 2)
      min_base_fee2
  termination_by Nat.floor time_factor
  decreasing_by
    have h1 : (1 : ℝ) ≤ time_factor := not_lt.mp h
    have hn : 1 ≤ Nat.floor time_factor := Nat.le_floor (by exact_mod_cast h1)
    have hcast : (1 : ℝ) ≤ (Nat.floor time_factor : ℝ) := by exact_mod_cast hn
    have h2 : time_factor < Nat.floor time_factor + 1 :=
      Nat.lt_floor_add_one time_factor
    have h3 : time_factor / 2 < (Nat.floor time_factor : ℝ) := by linarith
    exact (Nat.floor_lt (by linarith)).mpr h3

/-- The pure core of `suggest_fee` (lines 167–247), taking the fetched fee
history and the (sorted) rewards collected by `collect_rewards` as inputs:
adjust the base fees, order the indices, run the suggestion loop from
`max_time_factor` with `max_base_fee = 0.0`, and reverse the result so the
smallest time factor comes first. -/
noncomputable def suggest_fee (fee_history : FeeHistory) (rewards : List ℕ)
    (params : Params) : List (ℝ × EstimatedGasPrice ℝ) :=
  let base_fee := adjusted_base_fee fee_history
  let order := baseFeeOrder base_fee
  (suggestFeeLoop fee_history base_fee order rewards params
    params.max_time_factor 0).reverse

/-- `CachedResponse` from `src/nativegasestimator.rs`: last update instant (in
seconds) and the list of gas price estimates coupled with time factors. -/
structure CachedResponse where
  time : ℝ
  data : List (ℝ × EstimatedGasPrice ℝ)

/-- The free function `estimate_with_limits` of `src/nativegasestimator.rs`
(lines 392–450): fail when the snapshot is older than
`CACHED_RESPONSE_VALIDITY`, fail when the cached data list is empty, otherwise
interpolate max fee and max priority fee over the cached `(time_factor, fee)`
points at the requested time limit; the base fee is taken from the first
entry. -/
noncomputable def estimate_with_limits (now : ℝ) (time_limit : ℝ)
    (cached_response : CachedResponse) :
    Except EstimatorError (EstimatedGasPrice ℝ) :=
  if max (now - cached_response.time) 0 > CACHED_RESPONSE_VALIDITY then
    .error .staleCache
  else if cached_response.data.isEmpty then .error .noCachedData
  else
    let max_fee_per_gas_points := cached_response.data.map (fun p =>
      (p.1, (p.2.eip1559.getD default).max_fee_per_gas))
    let max_priority_fee_per_gas_points := cached_response.data.map (fun p =>
      (p.1, (p.2.eip1559.getD default).max_priority_fee_per_gas))
    match (cached_response.data.headD default).2.eip1559 with
    | none => .error .noEip1559
    | some eip1559 =>
      match interpolate time_limit max_fee_per_gas_points,
            interpolate time_limit max_priority_fee_per_gas_points with
      | some max_fee, some max_priority =>
        .ok
          { legacy := 0
            eip1559 := some
              { max_fee_per_gas := max_fee
                max_priority_fee_per_gas := max_priority
                base_fee_per_gas := eip1559.base_fee_per_gas } }
      | _, _ => .error .invalidInput

/-- The trait method `GasPriceEstimating::estimate_with_limits` for
`NativeGasEstimator` (lines 379–390): `gas_limit` is received as `_gas_limit`
and unused; the cached snapshot is cloned and handed to the free function. -/
noncomputable def trait_estimate_with_limits (now : ℝ)
    (cached_response : CachedResponse) (_gas_limit : ℝ) (time_limit : ℝ) :
    Except EstimatorError (EstimatedGasPrice ℝ) :=
  estimate_with_limits now time_limit cached_response

end NativeOracle

namespace EthNode

/-- `estimate_with_limits` for `Web3<T>` from `src/eth_node.rs` (lines 15–31):
both `gas_limit` and `time_limit` are unused; the node's `eth_gasPrice` answer
(a `U256`, modelled as `ℕ`) is converted to `f64` and returned as the legacy
price with no EIP-1559 data. -/
def estimate_with_limits (gas_price : ℕ) (_gas_limit : ℝ) (_time_limit : ℝ) :
    Except EstimatorError (EstimatedGasPrice ℝ) :=
  .ok { legacy := (gas_price : ℝ), eip1559 := none }

end EthNode

/-- The literal BlockNative block of the repository's own
`estimate_with_limits_test`: five (confidence, price, max_priority, max_fee)
entries and the base fee `94.647990462`, all in gwei as cached by the test. -/
def sampleBlock : Blocknative.BlockPrice where
  estimated_prices := [⟨99, 104, 9.86, 199.16⟩, ⟨95, 99, 5.06, 194.35⟩,
    ⟨90, 98, 4.16, 193.45⟩, ⟨80, 97, 2.97, 192.27⟩, ⟨70, 96, 1.74, 191.04⟩]
  base_fee_per_gas := 94.647990462

/-- A fresh cached response holding `sampleBlock` (updated at instant 0). -/
def sampleCached : Blocknative.CachedResponse := ⟨0, ⟨[sampleBlock]⟩⟩

end GasEstimation

namespace GasEstimation

/-- C1: evaluating the base-fee initialisation of `suggest_fee` on the history
`base_fee_per_gas = [100, 800]`, `gas_used_ratio = [1/2]`: the pending entry
`800` is left unchanged because the Rust expression `9 / 8` is integer
division and evaluates to `1`, whereas multiplying by the intended rational
`9/8` would give `900`. -/
theorem pending_base_fee_multiplier_is_noop :
    NativeOracle.adjusted_base_fee ⟨0, [100, 800], [1/2]⟩ = [100, 800] ∧
    (800 : ℚ) * (9 / 8) = 900 := by
  constructor
  · norm_num [NativeOracle.adjusted_base_fee, NativeOracle.carryForward]
  · norm_num

/-- C2 (counterexample): with the default parameters the sampling curve at the
midpoint `(10 + 30) / 2 = 20` of the percentile range is `1`, not `0.5` — the
cosine argument `(20 - 10)·2π/(30 - 10)` is a full half-period `π`. -/
theorem sampling_curve_at_20_ne_half :
    NativeOracle.sampling_curve 20 NativeOracle.Params.default ≠ 1 / 2 := by
  have harg : ((20 : ℝ) - 10) * 2 * Real.pi / (30 - 10) = Real.pi := by ring
  norm_num [NativeOracle.sampling_curve, NativeOracle.Params.default, harg]

/-- C2 (amended): with the default parameters `sample_min_percentile = 10`
and `sample_max_percentile = 30`, `sampling_curve(10) = 0`,
`sampling_curve(30) = 1` and the value `0.5` is attained at the quarter point
`15`, not at the midpoint `20`. -/
theorem sampling_curve_boundary_and_quarter_values :
    NativeOracle.sampling_curve 10 NativeOracle.Params.default = 0 ∧
    NativeOracle.sampling_curve 30 NativeOracle.Params.default = 1 ∧
    NativeOracle.sampling_curve 15 NativeOracle.Params.default = 1 / 2 := by
  have harg : (10 : ℝ) * Real.pi / 20 = Real.pi / 2 := by ring
  refine ⟨?_, ?_, ?_⟩ <;>
    norm_num [NativeOracle.sampling_curve, NativeOracle.Params.default, harg]

/-- C3 (counterexample): `limit_cap` does not preserve the invariant
`max_fee_per_gas ≥ base_fee_per_gas` for every finite `c ≥ 0`: for the valid
gas price (base 10, max fee 20, max priority 5) and cap `c = 3` the result has
`max_fee_per_gas = 3 < 10 = base_fee_per_gas`. -/
theorem limit_cap_can_break_base_fee_invariant :
    (0 : ℚ) ≤ 3 ∧ (5 : ℚ) ≤ 20 ∧ (10 : ℚ) ≤ 20 ∧
    ¬ ((GasPrice1559.limit_cap ⟨10, 20, 5⟩ (3 : ℚ)).base_fee_per_gas ≤
        (GasPrice1559.limit_cap ⟨10, 20, 5⟩ (3 : ℚ)).max_fee_per_gas) := by
  norm_num [GasPrice1559.limit_cap]

/-- C3 (amended): for a valid `GasPrice1559` and finite `c ≥ 0`, `limit_cap c`
returns `max_fee_per_gas = min max_fee_per_gas c` and
`max_priority_fee_per_gas = min max_priority_fee_per_gas (min max_fee_per_gas
c)`; the inequality `max_fee_per_gas ≥ max_priority_fee_per_gas` is always
preserved, while `max_fee_per_gas ≥ base_fee_per_gas` is preserved exactly
when additionally `c ≥ base_fee_per_gas`. -/
theorem limit_cap_clamps_and_preserves_priority_invariant {α : Type}
    [LinearOrderedField α] (g : GasPrice1559 α) (c : α) (h0 : 0 ≤ c)
    (h1 : g.max_priority_fee_per_gas ≤ g.max_fee_per_gas)
    (h2 : g.base_fee_per_gas ≤ g.max_fee_per_gas) :
    (g.limit_cap c).max_fee_per_gas = min g.max_fee_per_gas c ∧
    (g.limit_cap c).max_priority_fee_per_gas =
      min g.max_priority_fee_per_gas (min g.max_fee_per_gas c) ∧
    (g.limit_cap c).max_priority_fee_per_gas ≤ (g.limit_cap c).max_fee_per_gas ∧
    (g.base_fee_per_gas ≤ c →
      (g.limit_cap c).base_fee_per_gas ≤ (g.limit_cap c).max_fee_per_gas) := by
  refine ⟨rfl, rfl, min_le_right _ _, fun hc => le_min h2 hc⟩

/-- C3 (witness): the amended statement applied at the concrete valid price
(base 10, max fee 20, max priority 5) with cap 15. -/
theorem limit_cap_clamps_witness :
    (0 : ℚ) ≤ 15 ∧ (5 : ℚ) ≤ 20 ∧ (10 : ℚ) ≤ 20 ∧
    ((GasPrice1559.limit_cap ⟨10, 20, 5⟩ (15 : ℚ)).max_fee_per_gas =
        min 20 15 ∧
     (GasPrice1559.limit_cap ⟨10, 20, 5⟩ (15 : ℚ)).max_priority_fee_per_gas =
        min 5 (min 20 15) ∧
     (GasPrice1559.limit_cap ⟨10, 20, 5⟩ (15 : ℚ)).max_priority_fee_per_gas ≤
        (GasPrice1559.limit_cap ⟨10, 20, 5⟩ (15 : ℚ)).max_fee_per_gas ∧
     ((10 : ℚ) ≤ 15 →
       (GasPrice1559.limit_cap ⟨10, 20, 5⟩ (15 : ℚ)).base_fee_per_gas ≤
         (GasPrice1559.limit_cap ⟨10, 20, 5⟩ (15 : ℚ)).max_fee_per_gas)) :=
  ⟨by norm_num, by norm_num, by norm_num,
    limit_cap_clamps_and_preserves_priority_invariant ⟨10, 20, 5⟩ 15
      (by norm_num) (by norm_num) (by norm_num)⟩

/-- C4: on the fresh cached BlockNative response of the repository's test
(`sampleCached`), `estimate_with_limits` clamps to the highest-confidence
entry below the smallest anchor (10 s), interpolates between the 95% and 90%
anchors at 16 s, and clamps to the lowest-confidence entry above the largest
anchor (25 s); the base fee is always `94.647990462`. -/
theorem blocknative_estimate_with_limits_sample_values :
    Blocknative.estimate_with_limits 0 10 sampleCached =
      .ok ⟨104, some ⟨94.647990462, 199.16, 9.86⟩⟩ ∧
    Blocknative.estimate_with_limits 0 16 sampleCached =
      .ok ⟨98.76, some ⟨94.647990462, 194.134, 4.844⟩⟩ ∧
    Blocknative.estimate_with_limits 0 25 sampleCached =
      .ok ⟨96, some ⟨94.647990462, 191.04, 1.74⟩⟩ := by
  refine ⟨?_, ?_, ?_⟩ <;>
    norm_num [Blocknative.estimate_with_limits,
      Blocknative.CACHED_RESPONSE_VALIDITY, Blocknative.TIME_PER_BLOCK,
      sampleCached, sampleBlock, List.insertionSort, List.orderedInsert,
      interpolate, interpolateSegments]

section NativeOracleProofs

open NativeOracle

/-- Indexing a `(· ≤ ·)`-sorted list with the default `0` is monotone over
in-bounds indices. -/
theorem getD_mono_of_sorted {l : List ℕ} (h : l.Sorted (· ≤ ·)) {i j : ℕ}
    (hij : i ≤ j) (hj : j < l.length) : l.getD i 0 ≤ l.getD j 0 := by
  have hi : i < l.length := lt_of_le_of_lt hij hj
  rw [List.getD_eq_getElem l 0 hi, List.getD_eq_getElem l 0 hj]
  exact h.rel_get_of_le (a := ⟨i, hi⟩) (b := ⟨j, hj⟩) hij

/-- `suggest_priority_fee` is antitone in the time factor: over sorted rewards
and percentile parameters inside `[0, 100]`, a larger time factor (a wider
time window) selects a reward percentile index at most as large, hence a
priority fee at most as large. -/
theorem suggest_priority_fee_anti (rewards : List ℕ) (p : Params)
    (hs : rewards.Sorted (· ≤ ·)) (h0 : 0 ≤ p.min_block_percentile)
    (h1 : p.min_block_percentile ≤ p.max_block_percentile)
    (h2 : p.max_block_percentile ≤ 100)
    {t s : ℝ} (ht : 1 ≤ t) (hts : t ≤ s) :
    suggest_priority_fee rewards s p ≤ suggest_priority_fee rewards t p := by
  by_cases he : rewards.isEmpty
  · simp [suggest_priority_fee, he]
  · have hlen : 1 ≤ rewards.length := by
      cases rewards with
      | nil => simp at he
      | cons a l => simp
    have hn1 : (0 : ℝ) ≤ (rewards.length : ℝ) - 1 := by
      have hc : (1 : ℝ) ≤ (rewards.length : ℝ) := by exact_mod_cast hlen
      linarith
    have ht0 : (0 : ℝ) < t := by linarith
    have hd0 : (0 : ℝ) ≤ p.max_block_percentile - p.min_block_percentile := by
      linarith
    have hdiv : (p.max_block_percentile - p.min_block_percentile) / s ≤
        (p.max_block_percentile - p.min_block_percentile) / t :=
      div_le_div_of_nonneg_left hd0 ht0 hts
    have hfac : (p.min_block_percentile +
        (p.max_block_percentile - p.min_block_percentile) / s) / 100 ≤
        (p.min_block_percentile +
        (p.max_block_percentile - p.min_block_percentile) / t) / 100 := by
      linarith
    have hft1 : (p.min_block_percentile +
        (p.max_block_percentile - p.min_block_percentile) / t) / 100 ≤ 1 := by
      have hdt : (p.max_block_percentile - p.min_block_percentile) / t ≤
          p.max_block_percentile - p.min_block_percentile :=
        div_le_self hd0 ht
      linarith
    have hmul : ((rewards.length : ℝ) - 1) *
        ((p.min_block_percentile +
          (p.max_block_percentile - p.min_block_percentile) / s) / 100) ≤
        ((rewards.length : ℝ) - 1) *
        ((p.min_block_percentile +
          (p.max_block_percentile - p.min_block_percentile) / t) / 100) :=
      mul_le_mul_of_nonneg_left hfac hn1
    have hmul1 : ((rewards.length : ℝ) - 1) *
        ((p.min_block_percentile +
          (p.max_block_percentile - p.min_block_percentile) / t) / 100) ≤
        ((rewards.length : ℝ) - 1) := by
      nlinarith
    have hfl_mono : Int.floor (((rewards.length : ℝ) - 1) *
        ((p.min_block_percentile +
          (p.max_block_percentile - p.min_block_percentile) / s) / 100)) ≤
        Int.floor (((rewards.length : ℝ) - 1) *
        ((p.min_block_percentile +
          (p.max_block_percentile - p.min_block_percentile) / t) / 100)) :=
      Int.floor_le_floor hmul
    have hfl_le : Int.floor (((rewards.length : ℝ) - 1) *
        ((p.min_block_percentile +
          (p.max_block_percentile - p.min_block_percentile) / t) / 100)) ≤
        (rewards.length : ℤ) - 1 := by
      have hcast : ((rewards.length : ℝ) - 1) =
          ((((rewards.length : ℤ) - 1) : ℤ) : ℝ) := by push_cast; ring
      calc Int.floor (((rewards.length : ℝ) - 1) *
            ((p.min_block_percentile +
              (p.max_block_percentile - p.min_block_percentile) / t) / 100)) ≤
          Int.floor ((rewards.length : ℝ) - 1) := Int.floor_le_floor hmul1
        _ = (rewards.length : ℤ) - 1 := by rw [hcast, Int.floor_intCast]
    have hidx_lt : (Int.floor (((rewards.length : ℝ) - 1) *
        ((p.min_block_percentile +
          (p.max_block_percentile - p.min_block_percentile) / t) / 100))).toNat <
        rewards.length := by omega
    simp only [suggest_priority_fee, he, if_false, Bool.false_eq_true]
    apply add_le_add_right
    have hg := getD_mono_of_sorted hs (Int.toNat_le_toNat hfl_mono) hidx_lt
    exact_mod_cast hg

/-- Every entry `(t, g)` of the suggestion loop started at `(tf, m)` has
`1 ≤ t ≤ tf`, carries an EIP-1559 triple, and its cap is at least
`m + suggest_priority_fee(t)` — the running maximum only ever grows. -/
theorem suggestFeeLoop_mem (fh : FeeHistory) (base_fee order rewards : List ℕ)
    (p : Params) (hs : rewards.Sorted (· ≤ ·))
    (h0 : 0 ≤ p.min_block_percentile)
    (h1 : p.min_block_percentile ≤ p.max_block_percentile)
    (h2 : p.max_block_percentile ≤ 100) (tf m : ℝ) :
    ∀ x ∈ suggestFeeLoop fh base_fee order rewards p tf m,
      1 ≤ x.1 ∧ x.1 ≤ tf ∧ x.2.eip1559.isSome = true ∧
        m + suggest_priority_fee rewards x.1 p ≤ x.2.cap := by
  induction tf, m using suggestFeeLoop.induct fh base_fee order rewards p with
  | case1 tf m hlt =>
    rw [suggestFeeLoop]
    simp [hlt]
  | case2 tf m hlt mb mb2 ih =>
    rw [suggestFeeLoop]
    simp only [dif_neg hlt]
    intro x hx
    rcases List.mem_cons.mp hx with rfl | hx2
    · have h1tf : 1 ≤ tf := not_lt.mp hlt
      refine ⟨h1tf, le_refl _, rfl, ?_⟩
      simp only [EstimatedGasPrice.cap]
      apply add_le_add_right
      split <;> linarith
    · obtain ⟨ha, hb, hc, hd⟩ := ih x hx2
      have h1tf : 1 ≤ tf := not_lt.mp hlt
      have hm2 : m ≤ mb2 := by
        by_cases hco : mb > m
        · have he2 : mb2 = mb := dif_pos hco
          rw [he2]; exact le_of_lt hco
        · have he2 : mb2 = m := dif_neg hco
          rw [he2]
      refine ⟨ha, le_trans hb (by linarith), hc, le_trans ?_ hd⟩
      exact add_le_add_right hm2 _

/-- Along the (pre-reversal) suggestion loop the time factors strictly
decrease while the caps (`max_fee_per_gas`) are nondecreasing. -/
theorem suggestFeeLoop_pairwise (fh : FeeHistory)
    (base_fee order rewards : List ℕ) (p : Params)
    (hs : rewards.Sorted (· ≤ ·)) (h0 : 0 ≤ p.min_block_percentile)
    (h1 : p.min_block_percentile ≤ p.max_block_percentile)
    (h2 : p.max_block_percentile ≤ 100) (tf m : ℝ) :
    (suggestFeeLoop fh base_fee order rewards p tf m).Pairwise
      (fun a b => b.1 < a.1 ∧ a.2.cap ≤ b.2.cap) := by
  induction tf, m using suggestFeeLoop.induct fh base_fee order rewards p with
  | case1 tf m hlt =>
    rw [suggestFeeLoop]
    simp [hlt]
  | case2 tf m hlt mb mb2 ih =>
    rw [suggestFeeLoop]
    simp only [dif_neg hlt]
    refine List.Pairwise.cons ?_ ih
    intro x hx
    obtain ⟨ha, hb, hc, hd⟩ :=
      suggestFeeLoop_mem fh base_fee order rewards p hs h0 h1 h2 (tf / 2) mb2
        x hx
    have h1tf : 1 ≤ tf := not_lt.mp hlt
    constructor
    · linarith
    · simp only [EstimatedGasPrice.cap]
      have hpf : suggest_priority_fee rewards tf p ≤
          suggest_priority_fee rewards x.1 p :=
        suggest_priority_fee_anti rewards p hs h0 h1 h2 ha
          (le_trans hb (by linarith))
      calc mb2 + suggest_priority_fee rewards tf p ≤
          mb2 + suggest_priority_fee rewards x.1 p := add_le_add_left hpf _
        _ ≤ x.2.cap := hd

/-- C5: in the list produced by one refresh of the native oracle
(`suggest_fee`, after the final reverse), with `max_time_factor ≥ 1`, the
rewards sorted ascending (as `collect_rewards` guarantees) and the block
percentile parameters inside `[0, 100]`: the time factors are strictly
increasing, every entry carries an EIP-1559 triple, and every entry with a
smaller time factor has `max_fee_per_gas` (its `cap`) at least that of every
entry with a larger time factor. -/
theorem suggest_fee_increasing_times_antitone_caps (fh : FeeHistory)
    (rewards : List ℕ) (p : Params) (hmt : 1 ≤ p.max_time_factor)
    (hs : rewards.Sorted (· ≤ ·)) (h0 : 0 ≤ p.min_block_percentile)
    (h1 : p.min_block_percentile ≤ p.max_block_percentile)
    (h2 : p.max_block_percentile ≤ 100) :
    (suggest_fee fh rewards p).Pairwise
      (fun a b => a.1 < b.1 ∧ b.2.cap ≤ a.2.cap) ∧
    ∀ x ∈ suggest_fee fh rewards p, x.2.eip1559.isSome = true := by
  constructor
  · unfold suggest_fee
    rw [List.pairwise_reverse]
    exact suggestFeeLoop_pairwise fh _ _ rewards p hs h0 h1 h2 _ 0
  · intro x hx
    unfold suggest_fee at hx
    rw [List.mem_reverse] at hx
    exact (suggestFeeLoop_mem fh _ _ rewards p hs h0 h1 h2 _ 0 x hx).2.2.1

/-- C5 (witness): the monotonicity statement instantiated at the default
parameters, a two-block history and the sorted rewards `[5, 7, 9]`. -/
theorem suggest_fee_increasing_times_witness :
    (1 : ℝ) ≤ Params.default.max_time_factor ∧
    List.Sorted (· ≤ ·) [5, 7, 9] ∧
    (0 : ℝ) ≤ Params.default.min_block_percentile ∧
    Params.default.min_block_percentile ≤
      Params.default.max_block_percentile ∧
    Params.default.max_block_percentile ≤ 100 ∧
    ((suggest_fee ⟨0, [100, 200], [1/2]⟩ [5, 7, 9] Params.default).Pairwise
      (fun a b => a.1 < b.1 ∧ b.2.cap ≤ a.2.cap) ∧
    ∀ x ∈ suggest_fee ⟨0, [100, 200], [1/2]⟩ [5, 7, 9] Params.default,
      x.2.eip1559.isSome = true) :=
  ⟨by norm_num [Params.default], by decide, by norm_num [Params.default],
    by norm_num [Params.default], by norm_num [Params.default],
    suggest_fee_increasing_times_antitone_caps ⟨0, [100, 200], [1/2]⟩
      [5, 7, 9] Params.default (by norm_num [Params.default]) (by decide)
      (by norm_num [Params.default]) (by norm_num [Params.default])
      (by norm_num [Params.default])⟩

/-- C6: `suggest_priority_fee` returns the fallback priority fee on empty
rewards and otherwise `rewards[floor((len - 1) · f)] + extra_priority_fee_boost`
with `f = (min_block_percentile + (max_block_percentile -
min_block_percentile) / time_factor) / 100`; the default fallback is `2e9`,
and on the ten sample rewards of the repository's test at `time_factor = 1`
the result is `1615965689 + 1559 = 1615967248`. -/
theorem suggest_priority_fee_formula_and_sample (p : Params)
    (rewards : List ℕ) (time_factor : ℝ) (h : 1 ≤ time_factor) :
    suggest_priority_fee rewards time_factor p =
      (if rewards.isEmpty then p.fallback_priority_fee
       else (rewards.getD ((Int.floor ((rewards.length - 1 : ℝ) *
           ((p.min_block_percentile +
             (p.max_block_percentile - p.min_block_percentile) /
               time_factor) / 100))).toNat) 0 : ℝ) +
         p.extra_priority_fee_boost) ∧
    Params.default.fallback_priority_fee = 2e9 ∧
    suggest_priority_fee [1000000000, 1110000000, 1213318421, 1433574636,
      1557989644, 1615965689, 2000000000, 2557989644, 2910000000, 3000000000]
      1 Params.default = 1615967248 := by
  refine ⟨rfl, rfl, ?_⟩
  norm_num [suggest_priority_fee, Params.default, Int.toNat]

/-- C6 (witness): the formula applied at the default parameters, empty
rewards and time factor 2. -/
theorem suggest_priority_fee_formula_witness :
    (1 : ℝ) ≤ 2 ∧
    (suggest_priority_fee [] 2 Params.default =
      (if ([] : List ℕ).isEmpty then Params.default.fallback_priority_fee
       else (([] : List ℕ).getD ((Int.floor ((([] : List ℕ).length - 1 : ℝ) *
           ((Params.default.min_block_percentile +
             (Params.default.max_block_percentile -
               Params.default.min_block_percentile) / 2) / 100))).toNat)
           0 : ℝ) +
         Params.default.extra_priority_fee_boost) ∧
    Params.default.fallback_priority_fee = 2e9 ∧
    suggest_priority_fee [1000000000, 1110000000, 1213318421, 1433574636,
      1557989644, 1615965689, 2000000000, 2557989644, 2910000000, 3000000000]
      1 Params.default = 1615967248) :=
  ⟨by norm_num,
    suggest_priority_fee_formula_and_sample Params.default [] 2 (by norm_num)⟩

end NativeOracleProofs

/-- C7: the native read path fails with the stale-cache error whenever the
snapshot age (`Instant::now().saturating_duration_since`, i.e.
`max (now - time) 0`) exceeds `CACHED_RESPONSE_VALIDITY = 60`; when fresh but
with an empty data list it fails with the "no cached data exist" error; the
BlockNative read path fails with the stale-cache error past the same bound. -/
theorem read_paths_stale_and_not_ready (now time_limit : ℝ)
    (c : NativeOracle.CachedResponse) (nowQ time_limitQ : ℚ)
    (cB : Blocknative.CachedResponse) :
    (max (now - c.time) 0 > NativeOracle.CACHED_RESPONSE_VALIDITY →
      NativeOracle.estimate_with_limits now time_limit c =
        .error .staleCache) ∧
    (max (now - c.time) 0 ≤ NativeOracle.CACHED_RESPONSE_VALIDITY →
      c.data = [] →
      NativeOracle.estimate_with_limits now time_limit c =
        .error .noCachedData) ∧
    (max (nowQ - cB.time) 0 > Blocknative.CACHED_RESPONSE_VALIDITY →
      Blocknative.estimate_with_limits nowQ time_limitQ cB =
        .error .staleCache) := by
  refine ⟨fun h => ?_, fun h h2 => ?_, fun h => ?_⟩
  · simp [NativeOracle.estimate_with_limits, h]
  · simp [NativeOracle.estimate_with_limits, not_lt.mpr h, h2]
  · simp [Blocknative.estimate_with_limits, h]

/-- C7 (witness): the three error cases at concrete instants — a 100-second-old
empty native snapshot is stale, a 30-second-old empty one is not ready, a
100-second-old BlockNative snapshot is stale. -/
theorem read_paths_stale_witness :
    (max ((100 : ℝ) - 0) 0 > NativeOracle.CACHED_RESPONSE_VALIDITY ∧
      NativeOracle.estimate_with_limits 100 30 ⟨0, []⟩ =
        .error .staleCache) ∧
    (max ((30 : ℝ) - 0) 0 ≤ NativeOracle.CACHED_RESPONSE_VALIDITY ∧
      NativeOracle.estimate_with_limits 30 30 ⟨0, []⟩ =
        .error .noCachedData) ∧
    (max ((100 : ℚ) - 0) 0 > Blocknative.CACHED_RESPONSE_VALIDITY ∧
      Blocknative.estimate_with_limits 100 30 ⟨0, ⟨[]⟩⟩ =
        .error .staleCache) := by
  have h1 : max ((100 : ℝ) - 0) 0 > NativeOracle.CACHED_RESPONSE_VALIDITY := by
    norm_num [NativeOracle.CACHED_RESPONSE_VALIDITY]
  have h2 : max ((30 : ℝ) - 0) 0 ≤ NativeOracle.CACHED_RESPONSE_VALIDITY := by
    norm_num [NativeOracle.CACHED_RESPONSE_VALIDITY]
  have h3 : max ((100 : ℚ) - 0) 0 > Blocknative.CACHED_RESPONSE_VALIDITY := by
    norm_num [Blocknative.CACHED_RESPONSE_VALIDITY]
  exact ⟨⟨h1, (read_paths_stale_and_not_ready 100 30 ⟨0, []⟩ 100 30
        ⟨0, ⟨[]⟩⟩).1 h1⟩,
    ⟨h2, (read_paths_stale_and_not_ready 30 30 ⟨0, []⟩ 100 30
        ⟨0, ⟨[]⟩⟩).2.1 h2 rfl⟩,
    ⟨h3, (read_paths_stale_and_not_ready 30 30 ⟨0, []⟩ 100 30
        ⟨0, ⟨[]⟩⟩).2.2 h3⟩⟩

/-- C8: `effective_gas_price` is `min(max_fee_per_gas, base_fee_per_gas +
max_priority_fee_per_gas)` of the EIP-1559 triple when present and the legacy
price otherwise. -/
theorem effective_gas_price_formula {α : Type} [LinearOrderedField α]
    (g : EstimatedGasPrice α) :
    g.effective_gas_price =
      match g.eip1559 with
      | some t =>
        min t.max_fee_per_gas (t.base_fee_per_gas + t.max_priority_fee_per_gas)
      | none => g.legacy := by
  obtain ⟨l, e⟩ := g
  cases e <;> simp [EstimatedGasPrice.effective_gas_price, add_comm]

/-- C9: the trait-level `estimate_with_limits` of the BlockNative estimator,
the native fee oracle and the node RPC estimator ignore the `gas_limit`
argument: with the same state and time limit, any two gas limits give
identical results. -/
theorem estimate_independent_of_gas_limit (nowQ g1 g2 time_limitQ : ℚ)
    (cB : Blocknative.CachedResponse) (now g3 g4 time_limit : ℝ)
    (cN : NativeOracle.CachedResponse) (gas_price : ℕ) :
    Blocknative.trait_estimate_with_limits nowQ cB g1 time_limitQ =
      Blocknative.trait_estimate_with_limits nowQ cB g2 time_limitQ ∧
    NativeOracle.trait_estimate_with_limits now cN g3 time_limit =
      NativeOracle.trait_estimate_with_limits now cN g4 time_limit ∧
    EthNode.estimate_with_limits gas_price g3 time_limit =
      EthNode.estimate_with_limits gas_price g4 time_limit :=
  ⟨rfl, rfl, rfl⟩

/-- C10: `bump`, `bump_cap`, `ceil` and `limit_cap` on `GasPrice1559` leave
`base_fee_per_gas` unchanged (they only rewrite the two max fields). -/
theorem gas_price_ops_preserve_base_fee {α : Type} [LinearOrderedField α]
    [FloorRing α] (g : GasPrice1559 α) (factor cap : α) :
    (g.bump factor).base_fee_per_gas = g.base_fee_per_gas ∧
    (g.bump_cap factor).base_fee_per_gas = g.base_fee_per_gas ∧
    g.ceil.base_fee_per_gas = g.base_fee_per_gas ∧
    (g.limit_cap cap).base_fee_per_gas = g.base_fee_per_gas :=
  ⟨rfl, rfl, rfl, rfl⟩

end GasEstimation
